import Mathlib

/-!
Verification development for the personalization integration helper
(`personalization_helper.py` and `INTEGRATION_EXAMPLE.py`).

The remote HTTP service is modelled as an explicit oracle (`Http`): each
endpoint is a function from the username to either an HTTP response or a
raised `requests.exceptions.RequestException`.  JSON dictionaries are
modelled as records; a Python `dict.get(key, default)` on a possibly
missing key is an `Option` field read with `Option.getD`.  A dictionary
that is absent or empty (both falsy in Python) is modelled as `none`.
-/

set_option linter.unusedVariables false

/-- Python dict under the `communication_style` key.  A missing key inside
it is `none`; the code reads keys with defaults `"mixed"` / `"moderate"`. -/
structure CommStyle where
  formality : Option String
  verbosity : Option String
deriving DecidableEq

/-- Python dict under the `resume_insights` key. -/
structure ResumeInsights where
  total_analyses : Option Nat
  average_score : Option Rat
  latest_score : Option Rat
  improvement_trend : Option String
  target_roles : Option (List String)
deriving DecidableEq

/-- Python dict under the `recommendations` key. -/
structure Recommendations where
  learning_style : Option (List String)
deriving DecidableEq

/-- JSON user profile returned by `GET /user/{username}/profile`. -/
structure Profile where
  data_available : Option Bool
  personality_traits : Option (List (String × Rat))
  communication_style : Option CommStyle
  topics_of_interest : Option (List String)
  skill_levels : Option (List (String × String))
  recommendations : Option Recommendations
  resume_insights : Option ResumeInsights
  total_interactions : Option Nat
deriving DecidableEq

/-- JSON personality report returned by `GET /user/{username}/report`. -/
structure Report where
  has_data : Option Bool
  personality_type : Option String
  strengths : Option (List String)
  areas_for_improvement : Option (List String)
deriving DecidableEq

/-- An HTTP response as seen by `requests`: a status code and a parsed
JSON body. -/
structure HttpResponse (α : Type) where
  status_code : Nat
  json : α
deriving DecidableEq

/-- Outcome of one `requests.get` / `requests.post` call: either a
response object, or a raised `requests.exceptions.RequestException`
(timeout, connection error, ...). -/
inductive ReqResult (α : Type) where
  | ok (response : HttpResponse α)
  | exn
deriving DecidableEq

/-- The remote personalization service, as a deterministic oracle for the
three endpoints the helper calls. -/
structure Http where
  profileGet : String → ReqResult Profile
  reportGet : String → ReqResult Report
  updatePost : String → ReqResult Unit

namespace PersonalizationHelper

/-- `PersonalizationHelper.get_user_profile`: returns the JSON body on
status 200, `None` on any other status, and `None` when the request
raises. -/
def get_user_profile (http : Http) (username : String) : Option Profile :=
  match http.profileGet username with
  | ReqResult.ok response =>
      if response.status_code = 200 then some response.json else none
  | ReqResult.exn => none

/-- `PersonalizationHelper.get_user_report`: same shape as
`get_user_profile` but for the report endpoint. -/
def get_user_report (http : Http) (username : String) : Option Report :=
  match http.reportGet username with
  | ReqResult.ok response =>
      if response.status_code = 200 then some response.json else none
  | ReqResult.exn => none

/-- `PersonalizationHelper.trigger_profile_update`: fires the POST; true
exactly on status 200; false on any other status and on a raised
request exception (the `except` branch), so the function is total and
never propagates an exception. -/
def trigger_profile_update (http : Http) (username : String) : Bool :=
  match http.updatePost username with
  | ReqResult.ok response => if response.status_code = 200 then true else false
  | ReqResult.exn => false

/-- `PersonalizationHelper.should_personalize_response`: false when the
profile is absent, otherwise `total_interactions >= 5` (missing key
defaults to 0). -/
def should_personalize_response (http : Http) (username : String) : Bool :=
  match get_user_profile http username with
  | none => false
  | some profile => decide (5 ≤ (profile.total_interactions).getD 0)

end PersonalizationHelper

/-- Two-decimal rendering of a trait score, for Python `f"{v:.2f}"`
(Python rounds half to even; we round half up — the difference is
irrelevant to every claim below). -/
def fmt2 (v : Rat) : String :=
  let c : Int := round (v * 100)
  let sign := if c < 0 then "-" else ""
  let a := c.natAbs
  sign ++ toString (a / 100) ++ "." ++
    (if a % 100 < 10 then "0" else "") ++ toString (a % 100)

/-- First canned no-data message of `get_resume_summary_for_chat`
(profile absent). -/
def msgNoAccess : String :=
  "I don\x27t have access to your resume analysis yet. Please upload your resume through the Resume Analyzer module first."

/-- Second canned no-data message of `get_resume_summary_for_chat`
(resume insights missing, or zero analyses). -/
def msgNotUploaded : String :=
  "You haven\x27t uploaded any resume for analysis yet. Would you like me to guide you through the Resume Analyzer module?"

namespace PersonalizationHelper

/-- `PersonalizationHelper.build_personalization_context`: empty string
when the profile is absent or `data_available` is falsy; otherwise the
fixed-order insights block.  Python numeric formatting is rendered with
`toString`; the `isinstance` filter on trait values always passes in the
model, where all trait values are numbers. -/
def build_personalization_context (http : Http) (username : String) : String :=
  match get_user_profile http username with
  | none => ""
  | some profile =>
    if (profile.data_available).getD false = false then ""
    else
      let parts0 : List String := ["\n[PERSONALIZATION INSIGHTS:]"]
      let personality_type := (profile.personality_traits).getD []
      let parts1 :=
        if personality_type ≠ [] then
          let traits_str := String.intercalate ", "
            (personality_type.map fun kv => kv.1 ++ ": " ++ fmt2 kv.2)
          if traits_str ≠ "" then parts0 ++ ["Personality traits: " ++ traits_str]
          else parts0
        else parts0
      let parts2 :=
        match profile.communication_style with
        | some comm_style =>
            parts1 ++ ["Communication style: " ++ (comm_style.formality).getD "mixed" ++
              ", " ++ (comm_style.verbosity).getD "moderate"]
        | none => parts1
      let topics := (profile.topics_of_interest).getD []
      let parts3 :=
        if topics ≠ [] then
          parts2 ++ ["Topics of interest: " ++ String.intercalate ", " (topics.take 5)]
        else parts2
      let skills := (profile.skill_levels).getD []
      let parts4 :=
        if skills ≠ [] then
          parts3 ++ ["Skill levels: " ++
            String.intercalate ", " (skills.map fun kv => kv.1 ++ ": " ++ kv.2)]
        else parts3
      let parts5 :=
        match profile.recommendations with
        | some recs =>
            let learning_recs := (recs.learning_style).getD []
            if learning_recs ≠ [] then
              parts4 ++ ["Learning recommendations: " ++
                String.intercalate "; " (learning_recs.take 2)]
            else parts4
        | none => parts4
      let parts6 :=
        match profile.resume_insights with
        | some resume_insights =>
            if 0 < (resume_insights.total_analyses).getD 0 then
              parts5 ++ ["Resume performance: " ++
                toString ((resume_insights.average_score).getD 0) ++ "% average score, " ++
                (resume_insights.improvement_trend).getD "stable" ++ " trend"]
            else parts5
        | none => parts5
      String.intercalate "\n" (parts6 ++ ["[END PERSONALIZATION INSIGHTS]\n"])

/-- `PersonalizationHelper.get_resume_summary_for_chat`: two canned
no-data messages (absent profile, and missing-or-empty insights), else
the score-bearing summary with tier and trend sentences plus up to three
improvement bullets from the report endpoint. -/
def get_resume_summary_for_chat (http : Http) (username : String) : String :=
  match get_user_profile http username with
  | none => msgNoAccess
  | some profile =>
    match profile.resume_insights with
    | none => msgNotUploaded
    | some resume_insights =>
      if (resume_insights.total_analyses).getD 0 = 0 then msgNotUploaded
      else
        let total := (resume_insights.total_analyses).getD 0
        let avg_score := (resume_insights.average_score).getD 0
        let latest_score := (resume_insights.latest_score).getD 0
        let trend := (resume_insights.improvement_trend).getD "stable"
        let target_roles := (resume_insights.target_roles).getD []
        let summary := "Based on your " ++ toString total ++ " resume analysis/analyses:\n\n"
        let summary := summary ++ "📊 **Average Score**: " ++ toString avg_score ++ "%\n"
        let summary := summary ++ "📈 **Latest Score**: " ++ toString latest_score ++ "%\n"
        let summary := summary ++ "📉 **Trend**: " ++ trend ++ "\n"
        let summary :=
          if target_roles ≠ [] then
            summary ++ "🎯 **Target Roles**: " ++
              String.intercalate ", " (target_roles.take 3) ++ "\n"
          else summary
        let summary := summary ++ "\n"
        let summary :=
          if 80 ≤ avg_score then summary ++ "✨ Your resume is in excellent shape! "
          else if 70 ≤ avg_score then summary ++ "👍 Your resume is good, with room for improvement. "
          else if 60 ≤ avg_score then summary ++ "📝 Your resume needs some work to stand out. "
          else summary ++ "⚠️ Your resume needs significant improvements. "
        let summary :=
          if trend = "Improving" then summary ++ "Great job on the improvements you\x27ve made!"
          else if trend = "Declining" then summary ++ "Let\x27s work on getting your resume back on track."
          else summary ++ "Keep refining your resume with each application."
        match get_user_report http username with
        | some report =>
          if (report.has_data).getD false then
            let improvements := (report.areas_for_improvement).getD []
            if improvements ≠ [] then
              (improvements.take 3).foldl (fun acc imp => acc ++ "• " ++ imp ++ "\n")
                (summary ++ "\n\n**Key areas to focus on**:\n")
            else summary
          else summary
        | none => summary

/-- `PersonalizationHelper.get_personalized_greeting`: plain fallback on
absent or data-less profile, else a formality-dependent salutation plus a
topic-, resume- or generic follow-up.  Python checks
`if topics and len(topics) > 0` and then takes `topics[0]`, which is a
nonempty-list match. -/
def get_personalized_greeting (http : Http) (username : String) : String :=
  match get_user_profile http username with
  | none => "Hi " ++ username ++ "! 👋"
  | some profile =>
    if (profile.data_available).getD false = false then "Hi " ++ username ++ "! 👋"
    else
      let formality :=
        match profile.communication_style with
        | some comm_style => (comm_style.formality).getD "mixed"
        | none => "mixed"
      let has_resume :=
        match profile.resume_insights with
        | some resume_insights => decide (0 < (resume_insights.total_analyses).getD 0)
        | none => false
      let greeting :=
        if formality = "formal" then "Hello " ++ username ++ ","
        else "Hey " ++ username ++ "! 👋"
      match (profile.topics_of_interest).getD [] with
      | topic :: _ => greeting ++ " Ready to explore " ++ topic ++ " today?"
      | [] =>
          if has_resume then
            greeting ++ " How can I help you with your academic or career goals today?"
          else greeting ++ " What would you like to learn about today?"

end PersonalizationHelper

/-- C6: `should_personalize_response` returns false when the profile is
absent, and for a present profile returns true exactly when
`total_interactions` is at least 5 (hence false on 0,1,2,3,4 and true on
every value from 5 up). -/
theorem should_personalize_threshold (http : Http) (u : String) :
    (PersonalizationHelper.get_user_profile http u = none →
      PersonalizationHelper.should_personalize_response http u = false) ∧
    (∀ p, PersonalizationHelper.get_user_profile http u = some p →
      (PersonalizationHelper.should_personalize_response http u = true ↔
        5 ≤ (p.total_interactions).getD 0)) := by
  constructor
  · intro h
    unfold PersonalizationHelper.should_personalize_response
    rw [h]
  · intro p h
    unfold PersonalizationHelper.should_personalize_response
    rw [h]
    simp

/-- Sample profile with seven recorded interactions. -/
def profileSeven : Profile :=
  { data_available := some true
    personality_traits := none
    communication_style := none
    topics_of_interest := none
    skill_levels := none
    recommendations := none
    resume_insights := none
    total_interactions := some 7 }

/-- Oracle whose profile endpoint always answers 200 with `profileSeven`. -/
def httpSeven : Http :=
  { profileGet := fun _ => ReqResult.ok { status_code := 200, json := profileSeven }
    reportGet := fun _ => ReqResult.exn
    updatePost := fun _ => ReqResult.exn }

/-- Witness for C6 at a concrete oracle: seven interactions trigger
personalization. -/
theorem should_personalize_threshold_witness :
    PersonalizationHelper.should_personalize_response httpSeven "alice" = true :=
  ((should_personalize_threshold httpSeven "alice").2 profileSeven rfl).mpr (by decide)

/-- C7: `trigger_profile_update` returns true exactly when the POST got
status 200; any non-200 status and any raised request exception yield
false, and the function is total (no exception escapes: the `except`
branch returns false). -/
theorem trigger_update_true_iff_200 (http : Http) (u : String) :
    (PersonalizationHelper.trigger_profile_update http u = true ↔
      (∃ r, http.updatePost u = ReqResult.ok r ∧ r.status_code = 200)) ∧
    (∀ r, http.updatePost u = ReqResult.ok r → r.status_code ≠ 200 →
      PersonalizationHelper.trigger_profile_update http u = false) ∧
    (http.updatePost u = ReqResult.exn →
      PersonalizationHelper.trigger_profile_update http u = false) := by
  unfold PersonalizationHelper.trigger_profile_update
  refine ⟨?_, ?_, ?_⟩
  · cases h : http.updatePost u with
    | ok r =>
        simp only [h]
        by_cases hs : r.status_code = 200
        · simp [hs]
        · simp [hs]
    | exn =>
        simp [h]
  · intro r h hs
    simp [h, hs]
  · intro h
    simp [h]

/-- Oracle whose update endpoint answers HTTP 500. -/
def httpFiveHundred : Http :=
  { profileGet := fun _ => ReqResult.exn
    reportGet := fun _ => ReqResult.exn
    updatePost := fun _ => ReqResult.ok { status_code := 500, json := () } }

/-- Witness for C7 at a concrete oracle: an HTTP 500 on the update POST
makes `trigger_profile_update` return false. -/
theorem trigger_update_true_iff_200_witness :
    PersonalizationHelper.trigger_profile_update httpFiveHundred "bob" = false :=
  (trigger_update_true_iff_200 httpFiveHundred "bob").2.1
    { status_code := 500, json := () } rfl (by decide)

/-- C5: `build_personalization_context` returns the empty string when the
profile fetch comes back absent, and when a fetched profile has a falsy
`data_available`. -/
theorem build_context_empty_on_unavailable (http : Http) (u : String) :
    (PersonalizationHelper.get_user_profile http u = none →
      PersonalizationHelper.build_personalization_context http u = "") ∧
    (∀ p, PersonalizationHelper.get_user_profile http u = some p →
      (p.data_available).getD false = false →
      PersonalizationHelper.build_personalization_context http u = "") := by
  constructor
  · intro h
    unfold PersonalizationHelper.build_personalization_context
    rw [h]
  · intro p h hd
    unfold PersonalizationHelper.build_personalization_context
    rw [h]
    simp [hd]

/-- Profile whose only content is a falsy `data_available`. -/
def profileNoData : Profile :=
  { data_available := some false
    personality_traits := none
    communication_style := none
    topics_of_interest := none
    skill_levels := none
    recommendations := none
    resume_insights := none
    total_interactions := none }

/-- Oracle answering 200 with `profileNoData`. -/
def httpNoData : Http :=
  { profileGet := fun _ => ReqResult.ok { status_code := 200, json := profileNoData }
    reportGet := fun _ => ReqResult.exn
    updatePost := fun _ => ReqResult.exn }

/-- Witness for C5: a fetched profile with `data_available = false` gives
an empty context block. -/
theorem build_context_empty_on_unavailable_witness :
    PersonalizationHelper.build_personalization_context httpNoData "alice" = "" :=
  (build_context_empty_on_unavailable httpNoData "alice").2 profileNoData rfl rfl

/-- Oracle on which every request raises, so every profile fetch is
absent. -/
def httpAbsent : Http :=
  { profileGet := fun _ => ReqResult.exn
    reportGet := fun _ => ReqResult.exn
    updatePost := fun _ => ReqResult.exn }

/-- Profile that is available but has no `resume_insights` key. -/
def profileNoInsights : Profile :=
  { data_available := some true
    personality_traits := none
    communication_style := none
    topics_of_interest := none
    skill_levels := none
    recommendations := none
    resume_insights := none
    total_interactions := some 9 }

/-- Oracle answering 200 with `profileNoInsights`. -/
def httpNoInsights : Http :=
  { profileGet := fun _ => ReqResult.ok { status_code := 200, json := profileNoInsights }
    reportGet := fun _ => ReqResult.exn
    updatePost := fun _ => ReqResult.exn }

/-- Resume insights recording zero analyses. -/
def riZero : ResumeInsights :=
  { total_analyses := some 0
    average_score := none
    latest_score := none
    improvement_trend := none
    target_roles := none }

/-- Profile that is available and carries `riZero`. -/
def profileZeroAnalyses : Profile :=
  { data_available := some true
    personality_traits := none
    communication_style := none
    topics_of_interest := none
    skill_levels := none
    recommendations := none
    resume_insights := some riZero
    total_interactions := some 9 }

/-- Oracle answering 200 with `profileZeroAnalyses`. -/
def httpZeroAnalyses : Http :=
  { profileGet := fun _ => ReqResult.ok { status_code := 200, json := profileZeroAnalyses }
    reportGet := fun _ => ReqResult.exn
    updatePost := fun _ => ReqResult.exn }

/-- C4 counterexample: there is no assignment of three pairwise distinct
fixed strings to the three no-data conditions (profile absent / insights
missing / zero analyses) that `get_resume_summary_for_chat` realises:
the insights-missing condition and the zero-analyses condition return the
very same string, as the two concrete oracles `httpNoInsights` and
`httpZeroAnalyses` show, so the code has only two no-data messages, not
three. -/
theorem resume_summary_not_three_messages :
    ¬ ∃ m1 m2 m3 : String, m1 ≠ m2 ∧ m1 ≠ m3 ∧ m2 ≠ m3 ∧
      (∀ http u, PersonalizationHelper.get_user_profile http u = none →
        PersonalizationHelper.get_resume_summary_for_chat http u = m1) ∧
      (∀ http u p, PersonalizationHelper.get_user_profile http u = some p →
        p.resume_insights = none →
        PersonalizationHelper.get_resume_summary_for_chat http u = m2) ∧
      (∀ http u p ri, PersonalizationHelper.get_user_profile http u = some p →
        p.resume_insights = some ri → (ri.total_analyses).getD 0 = 0 →
        PersonalizationHelper.get_resume_summary_for_chat http u = m3) := by
  rintro ⟨m1, m2, m3, h12, h13, h23, habs, hmiss, hzero⟩
  have e2 : PersonalizationHelper.get_resume_summary_for_chat httpNoInsights "alice" = m2 :=
    hmiss httpNoInsights "alice" profileNoInsights rfl rfl
  have e3 : PersonalizationHelper.get_resume_summary_for_chat httpZeroAnalyses "alice" = m3 :=
    hzero httpZeroAnalyses "alice" profileZeroAnalyses riZero rfl rfl rfl
  apply h23
  rw [← e2, ← e3]
  decide

/-- C4 amended: for a no-data profile `get_resume_summary_for_chat`
returns one of exactly two fixed strings — `msgNoAccess` when the profile
is absent, and `msgNotUploaded` both when `resume_insights` is missing
and when `total_analyses` is zero — and hence never a score-bearing
summary. -/
theorem resume_summary_two_no_data_messages (http : Http) (u : String) :
    msgNoAccess ≠ msgNotUploaded ∧
    (PersonalizationHelper.get_user_profile http u = none →
      PersonalizationHelper.get_resume_summary_for_chat http u = msgNoAccess) ∧
    (∀ p, PersonalizationHelper.get_user_profile http u = some p →
      p.resume_insights = none →
      PersonalizationHelper.get_resume_summary_for_chat http u = msgNotUploaded) ∧
    (∀ p ri, PersonalizationHelper.get_user_profile http u = some p →
      p.resume_insights = some ri → (ri.total_analyses).getD 0 = 0 →
      PersonalizationHelper.get_resume_summary_for_chat http u = msgNotUploaded) := by
  refine ⟨by decide, ?_, ?_, ?_⟩
  · intro h
    unfold PersonalizationHelper.get_resume_summary_for_chat
    rw [h]
  · intro p h hri
    unfold PersonalizationHelper.get_resume_summary_for_chat
    rw [h]
    simp [hri]
  · intro p ri h hri hz
    unfold PersonalizationHelper.get_resume_summary_for_chat
    rw [h]
    simp [hri, hz]

/-- Witness for amended C4 at concrete oracles: absent profile and
zero-analyses profile get the two fixed messages. -/
theorem resume_summary_two_no_data_messages_witness :
    PersonalizationHelper.get_resume_summary_for_chat httpAbsent "alice" = msgNoAccess ∧
    PersonalizationHelper.get_resume_summary_for_chat httpZeroAnalyses "alice" = msgNotUploaded :=
  ⟨(resume_summary_two_no_data_messages httpAbsent "alice").2.1 rfl,
    (resume_summary_two_no_data_messages httpZeroAnalyses "alice").2.2.2
      profileZeroAnalyses riZero rfl rfl rfl⟩

/-- C10: a profile that is present but has a falsy `data_available` gets
exactly the plain fallback greeting, with no formality- or
topic-dependent content. -/
theorem greeting_plain_when_data_unavailable (http : Http) (u : String) (p : Profile)
    (hp : PersonalizationHelper.get_user_profile http u = some p)
    (hd : (p.data_available).getD false = false) :
    PersonalizationHelper.get_personalized_greeting http u = "Hi " ++ u ++ "! 👋" := by
  unfold PersonalizationHelper.get_personalized_greeting
  rw [hp]
  simp [hd]

/-- Witness for C10: the concrete data-less profile gets the plain
greeting. -/
theorem greeting_plain_when_data_unavailable_witness :
    PersonalizationHelper.get_personalized_greeting httpNoData "alice" = "Hi " ++ "alice" ++ "! 👋" :=
  greeting_plain_when_data_unavailable httpNoData "alice" profileNoData rfl rfl

/-- Substring relation on strings (Python `needle in hay`), as the infix
relation on the character lists. -/
def strContains (needle hay : String) : Prop := needle.data <:+: hay.data

/-- Substring is decidable, so concrete instances can be checked by
evaluation. -/
instance strContainsDec (a b : String) : Decidable (strContains a b) :=
  List.decidableInfix a.data b.data

/-- A string is a substring of any catenation ending in it. -/
theorem strContains_tail (a u : String) : strContains u (a ++ u) :=
  ⟨a.data, [], by simp⟩

/-- Substring containment survives appending on the right. -/
theorem strContains_appendOut (u x y : String) (h : strContains u x) :
    strContains u (x ++ y) := by
  obtain ⟨s, t, hst⟩ := h
  exact ⟨s, t ++ y.data, by rw [String.data_append, ← hst]; simp [List.append_assoc]⟩

/-- C8: whatever the profile-fetch outcome (absent, present without data,
present with any formality and any topics), the personalized greeting
contains the literal username as a substring. -/
theorem greeting_contains_username (http : Http) (u : String) :
    strContains u (PersonalizationHelper.get_personalized_greeting http u) := by
  unfold PersonalizationHelper.get_personalized_greeting
  cases hp : PersonalizationHelper.get_user_profile http u with
  | none => exact strContains_appendOut u _ _ (strContains_tail "Hi " u)
  | some p =>
      dsimp only
      repeat' split
      all_goals repeat first
        | exact strContains_tail _ u
        | apply strContains_appendOut

/-- C9: `should_personalize_response` never looks at `data_available`:
with a present profile whose `data_available` is falsy but whose
`total_interactions` is at least 5, it still answers true, while the
rendering operations (context block, greeting) treat the same profile as
carrying no usable data. -/
theorem should_personalize_ignores_data_available (http : Http) (u : String) (p : Profile)
    (hp : PersonalizationHelper.get_user_profile http u = some p)
    (hd : (p.data_available).getD false = false)
    (hti : 5 ≤ (p.total_interactions).getD 0) :
    PersonalizationHelper.should_personalize_response http u = true ∧
    PersonalizationHelper.build_personalization_context http u = "" ∧
    PersonalizationHelper.get_personalized_greeting http u = "Hi " ++ u ++ "! 👋" := by
  refine ⟨?_, ?_, ?_⟩
  · unfold PersonalizationHelper.should_personalize_response
    rw [hp]
    simp [hti]
  · unfold PersonalizationHelper.build_personalization_context
    rw [hp]
    simp [hd]
  · unfold PersonalizationHelper.get_personalized_greeting
    rw [hp]
    simp [hd]

/-- Profile hidden from rendering (`data_available = false`) yet with
eight interactions. -/
def profileHidden : Profile :=
  { data_available := some false
    personality_traits := none
    communication_style := none
    topics_of_interest := none
    skill_levels := none
    recommendations := none
    resume_insights := none
    total_interactions := some 8 }

/-- Oracle answering 200 with `profileHidden`. -/
def httpHidden : Http :=
  { profileGet := fun _ => ReqResult.ok { status_code := 200, json := profileHidden }
    reportGet := fun _ => ReqResult.exn
    updatePost := fun _ => ReqResult.exn }

/-- Witness for C9 at a concrete oracle. -/
theorem should_personalize_ignores_data_available_witness :
    PersonalizationHelper.should_personalize_response httpHidden "alice" = true ∧
    PersonalizationHelper.build_personalization_context httpHidden "alice" = "" ∧
    PersonalizationHelper.get_personalized_greeting httpHidden "alice" = "Hi " ++ "alice" ++ "! 👋" :=
  should_personalize_ignores_data_available httpHidden "alice" profileHidden rfl rfl (by decide)

/-- The cache of `EnhancedChatbot` (`self.profile_cache`): a dict from
username to (profile, fetch timestamp).  Wall-clock time (`time.time()`)
is modelled as an integer number of seconds. -/
def ProfileCache : Type := String → Option (Profile × Int)

/-- The cache with no entries. -/
def emptyCache : ProfileCache := fun _ => none

namespace EnhancedChatbot

/-- `self.cache_ttl = 300` seconds (5 minutes). -/
def cache_ttl : Int := 300

/-- `EnhancedChatbot._get_cached_profile`, with the wall clock `now` and
the cache passed explicitly.  The result carries the possibly updated
cache and the number of network requests issued: 0 on a cache hit,
1 whenever `get_user_profile` runs (each run performs exactly one
`requests.get`).  On a miss or stale entry the code fetches, stores the
profile only on success, and returns the fetch result; a stale entry is
not evicted on a failed refresh. -/
def get_cached_profile (http : Http) (now : Int) (cache : ProfileCache) (username : String) :
    Option Profile × ProfileCache × Nat :=
  let fetch : Option Profile × ProfileCache × Nat :=
    match PersonalizationHelper.get_user_profile http username with
    | some profile =>
        (some profile, fun v => if v = username then some (profile, now) else cache v, 1)
    | none => (none, cache, 1)
  match cache username with
  | some (profile, timestamp) =>
      if now - timestamp < cache_ttl then (some profile, cache, 0) else fetch
  | none => fetch

end EnhancedChatbot

/-- C1: when the first `_get_cached_profile` call at time `t0` performs a
network fetch (its request count is 1) and that fetch succeeds with
profile `p`, a second call for the same username at any later time `t1`
with `t1 - t0 < 300` returns the cached `p`, leaves the cache unchanged
and issues no request — exactly one network request across the two
calls. -/
theorem cache_two_calls_one_request (http : Http) (c0 : ProfileCache) (u : String)
    (t0 t1 : Int) (p : Profile)
    (hfetch : PersonalizationHelper.get_user_profile http u = some p)
    (hmiss : (EnhancedChatbot.get_cached_profile http t0 c0 u).2.2 = 1)
    (h0 : t0 ≤ t1) (h1 : t1 - t0 < 300) :
    (EnhancedChatbot.get_cached_profile http t0 c0 u).1 = some p ∧
    EnhancedChatbot.get_cached_profile http t1
        (EnhancedChatbot.get_cached_profile http t0 c0 u).2.1 u =
      (some p, (EnhancedChatbot.get_cached_profile http t0 c0 u).2.1, 0) ∧
    (EnhancedChatbot.get_cached_profile http t0 c0 u).2.2 +
      (EnhancedChatbot.get_cached_profile http t1
        (EnhancedChatbot.get_cached_profile http t0 c0 u).2.1 u).2.2 = 1 := by
  have key : EnhancedChatbot.get_cached_profile http t0 c0 u =
      (some p, fun v => if v = u then some (p, t0) else c0 v, 1) := by
    unfold EnhancedChatbot.get_cached_profile
    rw [hfetch]
    cases hc : c0 u with
    | none => rfl
    | some pair =>
        obtain ⟨q, ts⟩ := pair
        by_cases ht : t0 - ts < EnhancedChatbot.cache_ttl
        · exfalso
          unfold EnhancedChatbot.get_cached_profile at hmiss
          rw [hfetch, hc] at hmiss
          simp [ht] at hmiss
        · simp [ht]
  have key2 : EnhancedChatbot.get_cached_profile http t1
      (EnhancedChatbot.get_cached_profile http t0 c0 u).2.1 u =
      (some p, (EnhancedChatbot.get_cached_profile http t0 c0 u).2.1, 0) := by
    rw [key]
    unfold EnhancedChatbot.get_cached_profile
    simp [EnhancedChatbot.cache_ttl, h1]
  refine ⟨by rw [key], key2, ?_⟩
  rw [key2, key]
  rfl

/-- Witness for C1: starting from the empty cache at time 0, a second
call at time 100 serves the cached profile with no second request. -/
theorem cache_two_calls_one_request_witness :
    (EnhancedChatbot.get_cached_profile httpSeven 0 emptyCache "alice").1 = some profileSeven ∧
    EnhancedChatbot.get_cached_profile httpSeven 100
        (EnhancedChatbot.get_cached_profile httpSeven 0 emptyCache "alice").2.1 "alice" =
      (some profileSeven, (EnhancedChatbot.get_cached_profile httpSeven 0 emptyCache "alice").2.1, 0) ∧
    (EnhancedChatbot.get_cached_profile httpSeven 0 emptyCache "alice").2.2 +
      (EnhancedChatbot.get_cached_profile httpSeven 100
        (EnhancedChatbot.get_cached_profile httpSeven 0 emptyCache "alice").2.1 "alice").2.2 = 1 :=
  cache_two_calls_one_request httpSeven emptyCache "alice" 0 100 profileSeven rfl rfl
    (by decide) (by decide)

/-- One pass of Python `str.replace(old, new)` over a character list.
The `Nat` argument counts already-matched characters still to be
consumed (the replacement was emitted when the match was found).  The
recursion is structural in the list, so concrete instances evaluate by
kernel reduction. -/
def replAux (p r : List Char) : Nat → List Char → List Char
  | _, [] => []
  | Nat.succ k, _ :: s => replAux p r k s
  | 0, c :: s =>
      if !p.isEmpty && p.isPrefixOf (c :: s) then
        r ++ replAux p r (p.length - 1) s
      else c :: replAux p r 0 s

/-- Python `str.replace(old, new)`: replaces every non-overlapping
occurrence of `old`, scanning left to right.  (For an empty `old` Python
would interleave `new` everywhere; the chatbot only ever passes nonempty
patterns and this model leaves the string unchanged in that unused
case.) -/
def listReplace (p r s : List Char) : List Char := replAux p r 0 s

/-- Python `s.replace(old, new)` on strings. -/
def String.pyReplace (s old new : String) : String :=
  ⟨listReplace old.data new.data s.data⟩

namespace EnhancedChatbot

/-- `EnhancedChatbot._adapt_response_style`: formal mode rewrites the
fixed casual tokens in order ("Hey"→"Hello", "!"→".", " gonna "→
" going to ", " wanna "→" want to "); casual mode restores "Hey" and,
when the text has no "!" and is longer than 50 characters, appends a
space and the four characters that the source file literally contains at
that point (a mojibake-encoded smiley); any other formality returns the
text unchanged. -/
def adapt_response_style (response : String) (profile : Profile) : String :=
  let formality :=
    match profile.communication_style with
    | some comm_style => (comm_style.formality).getD "mixed"
    | none => "mixed"
  if formality = "formal" then
    (((response.pyReplace "Hey" "Hello").pyReplace "!" ".").pyReplace
      " gonna " " going to ").pyReplace " wanna " " want to "
  else if formality = "casual" then
    let response := response.pyReplace "Hello" "Hey"
    if ¬ strContains "!" response ∧ 50 < response.length then
      response ++ " ðŸ˜Š"
    else response
  else response

end EnhancedChatbot

/-- Profile whose communication style is formal. -/
def profileFormal : Profile :=
  { data_available := some true
    personality_traits := none
    communication_style := some { formality := some "formal", verbosity := none }
    topics_of_interest := none
    skill_levels := none
    recommendations := none
    resume_insights := none
    total_interactions := some 9 }

example : EnhancedChatbot.adapt_response_style " gonna gonna " profileFormal = " going to gonna " := by decide

example : EnhancedChatbot.adapt_response_style "gonna" profileFormal = "gonna" := by decide

/-- C3 counterexample: formal-mode adaptation only rewrites the
space-delimited token " gonna ", so the bare input "gonna" passes
through all four replacements unchanged and the output still contains
the substring "gonna". -/
theorem adapt_formal_keeps_bare_gonna :
    strContains "gonna" (EnhancedChatbot.adapt_response_style "gonna" profileFormal) := by
  decide

/-- C2 counterexample: overlapping occurrences defeat idempotence.  On
" gonna gonna " one formal-mode application yields " going to gonna "
(the second occurrence shares its leading space with the first match and
is skipped), and a second application rewrites the surviving " gonna "
again. -/
theorem adapt_formal_not_idempotent :
    EnhancedChatbot.adapt_response_style
        (EnhancedChatbot.adapt_response_style " gonna gonna " profileFormal) profileFormal ≠
      EnhancedChatbot.adapt_response_style " gonna gonna " profileFormal := by
  decide

/-- Skipping `k` pending characters is dropping them. -/
theorem replAux_skip (p r : List Char) :
    ∀ (k : Nat) (s : List Char), replAux p r k s = replAux p r 0 (List.drop k s) := by
  intro k
  induction k with
  | zero => intro s; rfl
  | succ k ih =>
      intro s
      cases s with
      | nil => rfl
      | cons c s => exact ih s

/-- Replacement on the empty list. -/
theorem listReplace_nil (p r : List Char) : listReplace p r [] = [] := rfl

/-- One-step unfolding of `listReplace` in the clean find-and-drop
form. -/
theorem listReplace_cons (p r : List Char) (c : Char) (s : List Char) :
    listReplace p r (c :: s) =
      if !p.isEmpty && p.isPrefixOf (c :: s) then
        r ++ listReplace p r (List.drop p.length (c :: s))
      else c :: listReplace p r s := by
  cases p with
  | nil => simp [listReplace, replAux]
  | cons a q =>
      show (if !(a :: q).isEmpty && (a :: q).isPrefixOf (c :: s) then
          r ++ replAux (a :: q) r ((a :: q).length - 1) s
        else c :: replAux (a :: q) r 0 s) = _
      by_cases h : (!(a :: q).isEmpty && (a :: q).isPrefixOf (c :: s)) = true
      · rw [if_pos h, if_pos h, replAux_skip]
        rfl
      · rw [if_neg h, if_neg h]
        rfl

/-- If the pattern occurs nowhere, replacement is the identity. -/
theorem listReplace_of_bounded_no_occurrence (p r : List Char) :
    ∀ (n : Nat) (s : List Char), s.length ≤ n → ¬ p <:+: s →
      listReplace p r s = s := by
  intro n
  induction n with
  | zero =>
      intro s hs hocc
      cases s with
      | nil => rfl
      | cons c t => simp at hs
  | succ n ih =>
      intro s hs hocc
      cases s with
      | nil => rfl
      | cons c t =>
          rw [listReplace_cons]
          have hpre : ¬ (!p.isEmpty && p.isPrefixOf (c :: t)) = true := by
            intro hct
            rw [Bool.and_eq_true] at hct
            have hpfx : p <+: c :: t := by
              have h2 := hct.2
              rwa [ List.isPrefixOf_iff_prefix] at h2
            exact hocc (List.IsPrefix.isInfix hpfx)
          rw [if_neg hpre]
          have ht : t.length ≤ n := by
            simp at hs
            omega
          rw [ih t ht (fun hx => hocc (List.infix_cons hx))]

/-- If the pattern occurs nowhere, replacement is the identity
(unbounded wrapper). -/
theorem listReplace_no_occurrence (p r s : List Char) (h : ¬ p <:+: s) :
    listReplace p r s = s :=
  listReplace_of_bounded_no_occurrence p r s.length s (Nat.le_refl _) h

/-- A start-segment of a catenation either sits inside the left part or
swallows it whole. -/
theorem splitOfAppendStart :
    ∀ (a b w : List Char), w <+: a ++ b →
      w <+: a ∨ ∃ w2, w = a ++ w2 ∧ w2 <+: b := by
  intro a
  induction a with
  | nil =>
      intro b w h
      right
      exact ⟨w, rfl, h⟩
  | cons c a ih =>
      intro b w h
      cases w with
      | nil =>
          left
          exact List.nil_prefix
      | cons d w =>
          rw [List.cons_append, List.cons_prefix_cons] at h
          obtain ⟨rfl, h2⟩ := h
          rcases ih b w h2 with h3 | ⟨w2, rfl, h4⟩
          · left
            exact List.cons_prefix_cons.mpr ⟨rfl, h3⟩
          · right
            exact ⟨w2, by simp, h4⟩

/-- A mid-segment of a catenation sits inside one part or straddles the
boundary with a nonempty piece on each side. -/
theorem splitOfAppendMid :
    ∀ (a b q : List Char), q <:+: a ++ b →
      q <:+: a ∨ q <:+: b ∨
        ∃ q1 q2, q = q1 ++ q2 ∧ q1 ≠ [] ∧ q2 ≠ [] ∧ q1 <:+ a ∧ q2 <+: b := by
  intro a
  induction a with
  | nil =>
      intro b q h
      right; left
      simpa using h
  | cons c a ih =>
      intro b q h
      rw [List.cons_append, List.infix_cons_iff] at h
      rcases h with h | h
      · cases q with
        | nil =>
            left
            exact List.nil_infix
        | cons d q =>
            rw [List.cons_prefix_cons] at h
            obtain ⟨rfl, h2⟩ := h
            rcases splitOfAppendStart a b q h2 with h3 | ⟨w2, rfl, h4⟩
            · left
              exact List.IsPrefix.isInfix (List.cons_prefix_cons.mpr ⟨rfl, h3⟩)
            · cases w2 with
              | nil =>
                  left
                  simp only [List.append_nil]
                  exact List.infix_rfl
              | cons e w2 =>
                  right; right
                  exact ⟨d :: a, e :: w2, by simp, by simp, by simp,
                    List.suffix_rfl, h4⟩
      · rcases ih b q h with h3 | h3 | ⟨q1, q2, rfl, hq1, hq2, hs, hp⟩
        · left
          exact List.infix_cons h3
        · right; left
          exact h3
        · right; right
          exact ⟨q1, q2, rfl, hq1, hq2,
            List.IsSuffix.trans hs (List.suffix_cons c a), hp⟩

/-- Any start-segment of a replacement output that is not a start-segment
of the input splits into an untouched start-segment of the input followed
by a nonempty piece that begins a replacement block: either a partial
copy of the replacement, or a full copy and more. -/
theorem replaceStartSplit (p r : List Char) :
    ∀ (n : Nat) (s w : List Char), s.length ≤ n →
      w <+: listReplace p r s → ¬ w <+: s →
      ∃ a b, w = a ++ b ∧ a <+: s ∧ b ≠ [] ∧
        (b <+: r ∨ ∃ b2, b = r ++ b2) := by
  intro n
  induction n with
  | zero =>
      intro s w hs hw hnw
      cases s with
      | nil =>
          exfalso
          rw [listReplace_nil] at hw
          have hw0 : w = [] := by simpa using hw
          subst hw0
          exact hnw List.nil_prefix
      | cons c t => simp at hs
  | succ n ih =>
      intro s w hs hw hnw
      cases s with
      | nil =>
          exfalso
          rw [listReplace_nil] at hw
          have hw0 : w = [] := by simpa using hw
          subst hw0
          exact hnw List.nil_prefix
      | cons c t =>
          rw [listReplace_cons] at hw
          by_cases hc : (!p.isEmpty && p.isPrefixOf (c :: t)) = true
          · rw [if_pos hc] at hw
            have hwne : w ≠ [] := by
              intro h0
              subst h0
              exact hnw List.nil_prefix
            rcases splitOfAppendStart r _ w hw with h3 | ⟨w2, rfl, h4⟩
            · exact ⟨[], w, by simp, List.nil_prefix, hwne, Or.inl h3⟩
            · exact ⟨[], r ++ w2, by simp, List.nil_prefix, hwne, Or.inr ⟨w2, rfl⟩⟩
          · rw [if_neg hc] at hw
            rw [List.prefix_cons_iff] at hw
            rcases hw with rfl | ⟨w1, rfl, hw1⟩
            · exact absurd List.nil_prefix hnw
            · by_cases hpt : w1 <+: t
              · exact absurd (List.cons_prefix_cons.mpr ⟨rfl, hpt⟩) hnw
              · have ht : t.length ≤ n := by
                  simp at hs
                  omega
                obtain ⟨a, b, heq, ha, hb, hcases⟩ := ih t w1 ht hw1 hpt
                exact ⟨c :: a, b, by simp [heq], List.cons_prefix_cons.mpr ⟨rfl, ha⟩,
                  hb, hcases⟩

/-- Replacement never creates a fresh occurrence of a word `q`, provided
the replacement text and `q` cannot interlock: `q` does not contain or
sit inside the replacement, no nonempty end-segment of the replacement
starts `q`, and no nonempty start-segment of the replacement ends `q`. -/
theorem replaceNoCreate (p r q : List Char)
    (hq : q ≠ [])
    (hqr : ¬ q <:+: r)
    (hrq : ¬ r <:+: q)
    (hst : ∀ t ∈ List.tails r, t ≠ [] → ¬ t <+: q)
    (hit : ∀ t ∈ List.inits r, t ≠ [] → ¬ t <:+ q) :
    ∀ (n : Nat) (s : List Char), s.length ≤ n → ¬ q <:+: s →
      ¬ q <:+: listReplace p r s := by
  intro n
  induction n with
  | zero =>
      intro s hs hqs
      cases s with
      | nil => rw [listReplace_nil]; exact hqs
      | cons c t => simp at hs
  | succ n ih =>
      intro s hs hqs
      cases s with
      | nil => rw [listReplace_nil]; exact hqs
      | cons c t =>
          rw [listReplace_cons]
          by_cases hc : (!p.isEmpty && p.isPrefixOf (c :: t)) = true
          · rw [if_pos hc]
            intro hocc
            rcases splitOfAppendMid r _ q hocc with h1 | h1 |
              ⟨q1, q2, heq, hq1, hq2, hq1s, hq2p⟩
            · exact hqr h1
            · have hd : ¬ q <:+: List.drop p.length (c :: t) := by
                intro hx
                exact hqs (List.IsInfix.trans hx
                  (List.IsSuffix.isInfix (List.drop_suffix _ _)))
              have hp1 : 1 ≤ p.length := by
                rcases p with _ | ⟨a, p⟩
                · simp at hc
                · simp
              have hlen : (List.drop p.length (c :: t)).length ≤ n := by
                rw [List.length_drop]
                simp only [List.length_cons]
                simp only [List.length_cons] at hs
                omega
              exact ih (List.drop p.length (c :: t)) hlen hd h1
            · refine hst q1 ((List.mem_tails _ _).mpr hq1s) hq1 ?_
              rw [heq]
              exact List.prefix_append q1 q2
          · rw [if_neg hc]
            intro hocc
            rw [List.infix_cons_iff] at hocc
            rcases hocc with h1 | h1
            · rw [List.prefix_cons_iff] at h1
              rcases h1 with h0 | ⟨q', heq', h2⟩
              · exact hq h0
              · by_cases hpt : q' <+: t
                · refine hqs (List.IsPrefix.isInfix ?_)
                  rw [heq']
                  exact List.cons_prefix_cons.mpr ⟨rfl, hpt⟩
                · have ht : t.length ≤ n := by
                    simp at hs
                    omega
                  obtain ⟨a, b, heq2, ha, hb, hcase⟩ :=
                    replaceStartSplit p r n t q' ht h2 hpt
                  rcases hcase with hbr | ⟨b2, rfl⟩
                  · refine hit b ((List.mem_inits _ _).mpr hbr) hb ?_
                    rw [heq', heq2]
                    exact List.IsSuffix.trans (List.suffix_append a b)
                      (List.suffix_cons c _)
                  · refine hrq ?_
                    rw [heq', heq2]
                    exact ⟨c :: a, b2, by simp⟩
            · have ht : t.length ≤ n := by
                simp at hs
                omega
              exact ih t ht (fun hx => hqs (List.infix_cons hx)) h1

/-- Unbounded wrapper for `replaceNoCreate`. -/
theorem replaceNoCreateAll (p r q : List Char) (hq : q ≠ []) (hqr : ¬ q <:+: r)
    (hrq : ¬ r <:+: q)
    (hst : ∀ t ∈ List.tails r, t ≠ [] → ¬ t <+: q)
    (hit : ∀ t ∈ List.inits r, t ≠ [] → ¬ t <:+ q)
    (s : List Char) (hqs : ¬ q <:+: s) : ¬ q <:+: listReplace p r s :=
  replaceNoCreate p r q hq hqr hrq hst hit s.length s (Nat.le_refl _) hqs

/-- In formal mode `_adapt_response_style` is exactly the four-step
replacement pipeline. -/
theorem adapt_formal_eq (response : String) (profile : Profile) (cs : CommStyle)
    (hcs : profile.communication_style = some cs)
    (hf : cs.formality = some "formal") :
    EnhancedChatbot.adapt_response_style response profile =
      (((response.pyReplace "Hey" "Hello").pyReplace "!" ".").pyReplace
        " gonna " " going to ").pyReplace " wanna " " want to " := by
  unfold EnhancedChatbot.adapt_response_style
  rw [hcs]
  simp [hf]

/-- C3 amended: the formal-mode pipeline never creates an occurrence of
"gonna" or "wanna" — an input containing neither substring produces an
output containing neither.  The unconditional claim fails: only the
space-delimited tokens " gonna " / " wanna " are replaced, so a bare
occurrence (such as the input "gonna") survives, as does a chained
" gonna gonna ". -/
theorem adapt_formal_no_new_gonna_wanna (profile : Profile) (cs : CommStyle)
    (hcs : profile.communication_style = some cs)
    (hf : cs.formality = some "formal") (t : String)
    (hg : ¬ strContains "gonna" t) (hw : ¬ strContains "wanna" t) :
    ¬ strContains "gonna" (EnhancedChatbot.adapt_response_style t profile) ∧
    ¬ strContains "wanna" (EnhancedChatbot.adapt_response_style t profile) := by
  rw [adapt_formal_eq t profile cs hcs hf]
  constructor
  · have hg1 : ¬ "gonna".data <:+: listReplace "Hey".data "Hello".data t.data :=
      replaceNoCreateAll _ _ _ (by decide) (by decide) (by decide) (by decide)
        (by decide) _ hg
    have hg2 : ¬ "gonna".data <:+:
        listReplace "!".data ".".data (listReplace "Hey".data "Hello".data t.data) :=
      replaceNoCreateAll _ _ _ (by decide) (by decide) (by decide) (by decide)
        (by decide) _ hg1
    have hg3 : listReplace " gonna ".data " going to ".data
        (listReplace "!".data ".".data (listReplace "Hey".data "Hello".data t.data)) =
        listReplace "!".data ".".data (listReplace "Hey".data "Hello".data t.data) :=
      listReplace_no_occurrence _ _ _
        (fun hx => hg2 (List.IsInfix.trans (by decide) hx))
    show ¬ "gonna".data <:+: listReplace " wanna ".data " want to ".data
      (listReplace " gonna ".data " going to ".data
        (listReplace "!".data ".".data (listReplace "Hey".data "Hello".data t.data)))
    rw [hg3]
    exact replaceNoCreateAll _ _ _ (by decide) (by decide) (by decide) (by decide)
      (by decide) _ hg2
  · have hw1 : ¬ "wanna".data <:+: listReplace "Hey".data "Hello".data t.data :=
      replaceNoCreateAll _ _ _ (by decide) (by decide) (by decide) (by decide)
        (by decide) _ hw
    have hw2 : ¬ "wanna".data <:+:
        listReplace "!".data ".".data (listReplace "Hey".data "Hello".data t.data) :=
      replaceNoCreateAll _ _ _ (by decide) (by decide) (by decide) (by decide)
        (by decide) _ hw1
    have hw3 : ¬ "wanna".data <:+:
        listReplace " gonna ".data " going to ".data
          (listReplace "!".data ".".data (listReplace "Hey".data "Hello".data t.data)) :=
      replaceNoCreateAll _ _ _ (by decide) (by decide) (by decide) (by decide)
        (by decide) _ hw2
    have hw4 : listReplace " wanna ".data " want to ".data
        (listReplace " gonna ".data " going to ".data
          (listReplace "!".data ".".data (listReplace "Hey".data "Hello".data t.data))) =
        listReplace " gonna ".data " going to ".data
          (listReplace "!".data ".".data (listReplace "Hey".data "Hello".data t.data)) :=
      listReplace_no_occurrence _ _ _
        (fun hx => hw3 (List.IsInfix.trans (by decide) hx))
    show ¬ "wanna".data <:+: listReplace " wanna ".data " want to ".data
      (listReplace " gonna ".data " going to ".data
        (listReplace "!".data ".".data (listReplace "Hey".data "Hello".data t.data)))
    rw [hw4]
    exact hw3

/-- Witness for amended C3 at a concrete input that the pipeline really
rewrites. -/
theorem adapt_formal_no_new_gonna_wanna_witness :
    ¬ strContains "gonna" (EnhancedChatbot.adapt_response_style "Hey there!" profileFormal) ∧
    ¬ strContains "wanna" (EnhancedChatbot.adapt_response_style "Hey there!" profileFormal) :=
  adapt_formal_no_new_gonna_wanna profileFormal
    { formality := some "formal", verbosity := none } rfl rfl "Hey there!"
    (by decide) (by decide)

/-- C2 amended: formal-mode adaptation is the identity on token-free
text, hence idempotent on every input whose adapted form no longer
contains "Hey", "!", " gonna " or " wanna "; unrestricted idempotence
fails because chained occurrences can leave a token in the output (see
the counterexample on " gonna gonna "). -/
theorem adapt_formal_idempotent_on_token_free (profile : Profile) (cs : CommStyle)
    (hcs : profile.communication_style = some cs)
    (hf : cs.formality = some "formal") (t : String)
    (h1 : ¬ strContains "Hey" (EnhancedChatbot.adapt_response_style t profile))
    (h2 : ¬ strContains "!" (EnhancedChatbot.adapt_response_style t profile))
    (h3 : ¬ strContains " gonna " (EnhancedChatbot.adapt_response_style t profile))
    (h4 : ¬ strContains " wanna " (EnhancedChatbot.adapt_response_style t profile)) :
    EnhancedChatbot.adapt_response_style
        (EnhancedChatbot.adapt_response_style t profile) profile =
      EnhancedChatbot.adapt_response_style t profile := by
  rw [adapt_formal_eq (EnhancedChatbot.adapt_response_style t profile) profile cs hcs hf]
  have e1 : (EnhancedChatbot.adapt_response_style t profile).pyReplace "Hey" "Hello" =
      EnhancedChatbot.adapt_response_style t profile := by
    unfold String.pyReplace
    rw [listReplace_no_occurrence _ _ _ h1]
  have e2 : (EnhancedChatbot.adapt_response_style t profile).pyReplace "!" "." =
      EnhancedChatbot.adapt_response_style t profile := by
    unfold String.pyReplace
    rw [listReplace_no_occurrence _ _ _ h2]
  have e3 : (EnhancedChatbot.adapt_response_style t profile).pyReplace
      " gonna " " going to " = EnhancedChatbot.adapt_response_style t profile := by
    unfold String.pyReplace
    rw [listReplace_no_occurrence _ _ _ h3]
  have e4 : (EnhancedChatbot.adapt_response_style t profile).pyReplace
      " wanna " " want to " = EnhancedChatbot.adapt_response_style t profile := by
    unfold String.pyReplace
    rw [listReplace_no_occurrence _ _ _ h4]
  rw [e1, e2, e3, e4]

/-- Witness for amended C2: "Hey!" adapts to "Hello." whose tokens are
gone, and a second application changes nothing. -/
theorem adapt_formal_idempotent_on_token_free_witness :
    EnhancedChatbot.adapt_response_style
        (EnhancedChatbot.adapt_response_style "Hey!" profileFormal) profileFormal =
      EnhancedChatbot.adapt_response_style "Hey!" profileFormal :=
  adapt_formal_idempotent_on_token_free profileFormal
    { formality := some "formal", verbosity := none } rfl rfl "Hey!"
    (by decide) (by decide) (by decide) (by decide)
